import Mathlib

set_option maxHeartbeats 1000000
set_option maxRecDepth 20000

/-
Verification development for the RepoRaterXGitGrade backend
(src/backend/index.js).  JavaScript strings are embedded as Lean
Strings (lists of characters); the four settled GitHub sub-requests and
the generative-model call are oracles passed explicitly to the embedded
request handler.
-/

/-- leadsWith pat s is true when pat is an initial run of s. -/
def leadsWith : List Char → List Char → Bool
  | [], _ => true
  | _ :: _, [] => false
  | p :: ps, c :: cs => p == c && leadsWith ps cs

/-- hasSub s pat is true when pat occurs contiguously inside s. -/
def hasSub : List Char → List Char → Bool
  | [], pat => leadsWith pat []
  | c :: rest, pat => leadsWith pat (c :: rest) || hasSub rest pat

/-- jsIncludes s k models JS s.includes(k). -/
def jsIncludes (s k : String) : Bool := hasSub s.data k.data

/-- JS String.prototype.toLowerCase, restricted to the ASCII range the
    classifier's keywords live in (character-wise Char.toLower). -/
def jsToLower (s : String) : String := ⟨s.data.map Char.toLower⟩

/-- Truthiness of an optional JS string (undefined and "" are falsy). -/
def strTruthy : Option String → Bool
  | none => false
  | some s => !(s == "")

/-- JS a || b on optional strings ("" is falsy). -/
def jsOrStr (a b : Option String) : Option String :=
  match a with
  | none => b
  | some s => if s == "" then b else some s

/-- JS (x || d) for an optional string with a default. -/
def jsOrDefault (o : Option String) (d : String) : String :=
  match o with
  | none => d
  | some s => if s == "" then d else s

/-- JS String.prototype.slice(0, n), at the character level. -/
def jsSlice (s : String) (n : Nat) : String := ⟨s.data.take n⟩

/-- JS String.prototype.replace with a plain-string pattern: only the
    first occurrence of pat is replaced. -/
def replaceFirstList : List Char → List Char → List Char → List Char
  | [], pat, repl => if leadsWith pat [] then repl else []
  | c :: rest, pat, repl =>
    if leadsWith pat (c :: rest) then repl ++ (c :: rest).drop pat.length
    else c :: replaceFirstList rest pat repl

def replaceFirst (s pat repl : String) : String :=
  ⟨replaceFirstList s.data pat.data repl.data⟩

/-- RepositoryIdentifier parsed from the URL. -/
structure RepoId where
  owner : String
  repo : String
deriving DecidableEq

/-- Match of ([^\/]+)\/([^\/]+) right after an occurrence of
    "github.com/": both capture groups are maximal nonempty runs of
    non-slash characters. -/
def matchRepoAt (cs : List Char) : Option (String × String) :=
  let g1 := cs.takeWhile (fun c => !(c == '/'))
  let r1 := cs.dropWhile (fun c => !(c == '/'))
  if g1.isEmpty then none
  else
    match r1 with
    | '/' :: r2 =>
      let g2 := r2.takeWhile (fun c => !(c == '/'))
      if g2.isEmpty then none else some (⟨g1⟩, ⟨g2⟩)
    | _ => none

/-- Leftmost match of the regex /github\.com\/([^\/]+)\/([^\/]+)/. -/
def matchRepoUrl : List Char → Option (String × String)
  | [] => none
  | c :: rest =>
    if leadsWith "github.com/".data (c :: rest) then
      match matchRepoAt ((c :: rest).drop 11) with
      | some p => some p
      | none => matchRepoUrl rest
    else matchRepoUrl rest

/-- extractRepoDetails (index.js lines 21-28): regex match, then
    match[2].replace(".git", "") which removes only the first occurrence
    of ".git".  The thrown "Invalid GitHub URL" is an Except.error. -/
def extractRepoDetails (url : String) : Except String RepoId :=
  match matchRepoUrl url.data with
  | none => Except.error "Invalid GitHub URL"
  | some (o, r) => Except.ok ⟨o, replaceFirst r ".git" ""⟩

/-- Fields of the repository-metadata response the code reads. -/
structure Meta where
  description : Option String
  stargazers_count : Nat
  forks_count : Nat
  open_issues_count : Nat
deriving DecidableEq

structure TreeNode where
  type : String
  path : String
deriving DecidableEq

/-- Settled results of the four concurrent sub-requests (none =
    rejected).  The tree value already reflects the main→master
    fallback; the readme value is the raw base64 content field. -/
structure GithubResults where
  meta : Option Meta
  langs : Option (List (String × Nat))
  tree : Option (List TreeNode)
  readme : Option String

structure RepoData where
  owner : String
  repo : String
  description : String
  stars : Nat
  forks : Nat
  open_issues : Nat
  readme : String
  file_structure : List String
  languages : List (String × Nat)
deriving DecidableEq

/-- Splitting on a separator character, p.split(sep) in JS:
    "".split is [""], and a trailing separator yields a final "". -/
def splitChar (sep : Char) : List Char → List (List Char)
  | [] => [[]]
  | c :: rest =>
    if c == sep then [] :: splitChar sep rest
    else
      match splitChar sep rest with
      | [] => [[c]]
      | s :: ss => (c :: s) :: ss

/-- jsSplit s sep models JS s.split(sep) for a one-character sep. -/
def jsSplit (s : String) (sep : Char) : List String :=
  (splitChar sep s.data).map (fun l => ⟨l⟩)

/-- file_structure computation (index.js lines 58-65): keep blob/tree
    nodes, take their paths, keep depth ≤ 3, slice(0, 100). -/
def fileStructure (tree : List TreeNode) : List String :=
  (((tree.filter (fun n => n.type == "blob" || n.type == "tree")).map
    TreeNode.path).filter
      (fun p => decide ((jsSplit p '/').length ≤ 3))).take 100

/-- Body of fetchGithubData's try block (index.js lines 38-86); decode
    models Buffer.from(content, "base64").toString("utf-8"). -/
def fetchGithubDataCore (decode : String → String) (owner repo : String)
    (g : GithubResults) : Except String RepoData :=
  match g.meta with
  | none => Except.error "Repository not found or private"
  | some meta =>
    Except.ok
      { owner := owner
        repo := repo
        description := meta.description.getD ""
        stars := meta.stargazers_count
        forks := meta.forks_count
        open_issues := meta.open_issues_count
        readme :=
          match g.readme with
          | some content => jsSlice (decode content) 8000
          | none => ""
        file_structure :=
          match g.tree with
          | some t => fileStructure t
          | none => []
        languages := g.langs.getD [] }

/-- fetchGithubData (index.js lines 31-91): the catch block replaces any
    error raised in the try body with "Failed to fetch repository
    data". -/
def fetchGithubData (decode : String → String) (owner repo : String)
    (g : GithubResults) : Except String RepoData :=
  match fetchGithubDataCore decode owner repo g with
  | Except.ok d => Except.ok d
  | Except.error _ => Except.error "Failed to fetch repository data"

def dsaKeywords : List String :=
  ["leetcode", "hackerrank", "dsa", "algorithm", "solutions", "cp", "competitive"]

def backendConfigs : List String :=
  ["package.json", "requirements.txt", "go.mod", "Cargo.toml"]

/-- isDSA flag of detectContext (index.js lines 105-109). -/
def isDSAData (data : RepoData) : Bool :=
  dsaKeywords.any fun k =>
    jsIncludes (jsToLower data.repo) k || jsIncludes (jsToLower data.description) k

/-- hasBackendConfig flag of detectContext (index.js lines 113-117). -/
def hasBackendConfig (data : RepoData) : Bool :=
  data.file_structure.any fun f => backendConfigs.any fun c => jsIncludes f c

/-- detectContext (index.js lines 94-122). -/
def detectContext (data : RepoData) : String :=
  if isDSAData data then "DSA"
  else if !hasBackendConfig data && decide (data.file_structure.length < 10) then "DSA"
  else "Backend"

/-- C1: for every snapshot whose repository name or description contains
    a DSA keyword as a case-insensitive substring, detectContext returns
    "DSA" regardless of the snapshot's file paths or file count. -/
theorem C1_keyword_forces_DSA (data : RepoData) (k : String)
    (hk : k ∈ dsaKeywords)
    (hocc : (jsIncludes (jsToLower data.repo) k || jsIncludes (jsToLower data.description) k) = true) :
    detectContext data = "DSA" := by
  have hdsa : isDSAData data = true := by
    unfold isDSAData
    exact List.any_eq_true.mpr ⟨k, hk, hocc⟩
  simp [detectContext, hdsa]

/-- C1 witness: "leetcode-solutions" with a backend-style file tree is
    still DSA. -/
theorem C1_keyword_forces_DSA_witness :
    detectContext
      { owner := "acme", repo := "leetcode-solutions", description := "",
        stars := 0, forks := 0, open_issues := 0, readme := "",
        file_structure := ["package.json", "src/index.js", "a", "b", "c",
          "d", "e", "f", "g", "h", "i"], languages := [] } = "DSA" :=
  C1_keyword_forces_DSA _ "leetcode" (by decide) (by decide)

/-- C2 counterexample: a snapshot whose file paths contain
    "package.json" but whose repository name contains a DSA keyword is
    classified "DSA", not "Backend", so the backend-config rule does not
    hold unconditionally. -/
theorem C2_counterexample :
    (["package.json"].any fun f => backendConfigs.any fun c => jsIncludes f c) = true ∧
    detectContext
      { owner := "acme", repo := "leetcode", description := "",
        stars := 0, forks := 0, open_issues := 0, readme := "",
        file_structure := ["package.json"], languages := [] } ≠ "Backend" := by
  exact ⟨by decide, by decide⟩

/-- C2 amended: when no DSA keyword occurs in the lowercased name or
    description, a file path containing a backend-config filename forces
    detectContext to "Backend", regardless of the file count. -/
theorem C2_backend_config_forces_Backend (data : RepoData)
    (hnk : isDSAData data = false)
    (hcfg : hasBackendConfig data = true) :
    detectContext data = "Backend" := by
  simp [detectContext, hnk, hcfg]

/-- C2 amended witness: a one-file snapshot holding package.json is
    Backend. -/
theorem C2_backend_config_forces_Backend_witness :
    detectContext
      { owner := "acme", repo := "shop-api", description := "",
        stars := 0, forks := 0, open_issues := 0, readme := "",
        file_structure := ["package.json"], languages := [] } = "Backend" :=
  C2_backend_config_forces_Backend _ (by decide) (by decide)

/-
JSON values as produced by JSON.parse and consumed by res.json
(JSON.stringify).  The embedded fragment covers the shapes the declared
response schema allows: strings, integers, arrays and objects (JSON
floats, booleans, null and \u escapes are outside the schema and are
not modelled).
-/

mutual
inductive Json where
  | str : String → Json
  | num : Int → Json
  | arr : JsonArr → Json
  | obj : JsonObj → Json
inductive JsonArr where
  | nil : JsonArr
  | cons : Json → JsonArr → JsonArr
inductive JsonObj where
  | nil : JsonObj
  | cons : String → Json → JsonObj → JsonObj
end

def hexDigitChar (n : Nat) : Char :=
  if n < 10 then Char.ofNat (48 + n) else Char.ofNat (87 + n)

/-- Escape-letter table: (letter in the text, character it denotes),
    shared by the JSON string reader and writer. -/
def escPairs : List (Char × Char) :=
  [('n', '\n'), ('r', '\r'), ('t', '\t'), ('b', '\x08'), ('f', '\x0c')]

/-- The escaping JSON.stringify applies inside string literals: quote
    and backslash keep themselves, the five short control escapes use
    their letters, remaining control characters get a hex escape. -/
def escapeChar (c : Char) : List Char :=
  if c == '"' || c == '\\' then ['\\', c]
  else
    match (escPairs.find? fun p => p.2 == c).map Prod.fst with
    | some letter => ['\\', letter]
    | none =>
      if c.toNat < 32 then
        '\\' :: 'u' :: '0' :: '0' ::
          [hexDigitChar (c.toNat / 16), hexDigitChar (c.toNat % 16)]
      else [c]

def quoteStr (s : String) : String :=
  ⟨'"' :: (s.data.foldr (fun c acc => escapeChar c ++ acc) ['"'])⟩

mutual
/-- JSON.stringify: compact serialization, keys in insertion order. -/
def jsonStringify : Json → String
  | Json.str s => quoteStr s
  | Json.num n => toString n
  | Json.arr xs => "[" ++ strArr xs ++ "]"
  | Json.obj kvs => "\x7b" ++ strObj kvs ++ "\x7d"
def strArr : JsonArr → String
  | JsonArr.nil => ""
  | JsonArr.cons x JsonArr.nil => jsonStringify x
  | JsonArr.cons x (JsonArr.cons y rest) =>
    jsonStringify x ++ "," ++ strArr (JsonArr.cons y rest)
def strObj : JsonObj → String
  | JsonObj.nil => ""
  | JsonObj.cons k v JsonObj.nil => quoteStr k ++ ":" ++ jsonStringify v
  | JsonObj.cons k v (JsonObj.cons k2 v2 rest) =>
    quoteStr k ++ ":" ++ jsonStringify v ++ "," ++ strObj (JsonObj.cons k2 v2 rest)
end

def isWs : Char → Bool
  | ' ' => true
  | '\t' => true
  | '\n' => true
  | '\r' => true
  | _ => false

def skipWs : List Char → List Char
  | [] => []
  | c :: rest => if isWs c then skipWs rest else c :: rest

/-- What a backslash escape in a JSON string denotes: quote, backslash
    and slash keep themselves; the letter escapes come from escPairs. -/
def unescape (c : Char) : Option Char :=
  if c == '"' || c == '\\' || c == '/' then some c
  else (escPairs.find? fun p => p.1 == c).map Prod.snd

/-- Body of a JSON string literal after the opening quote: returns the
    decoded characters and the remainder after the closing quote. -/
def strBody : List Char → Option (List Char × List Char)
  | [] => none
  | '"' :: rest => some ([], rest)
  | '\\' :: c :: rest =>
    match unescape c with
    | some u => (strBody rest).map (fun p => (u :: p.1, p.2))
    | none => none
  | '\\' :: [] => none
  | c :: rest =>
    if c.toNat < 32 then none
    else (strBody rest).map (fun p => (c :: p.1, p.2))

def isDigit (c : Char) : Bool := c.toNat >= 48 && c.toNat <= 57

def digitsToNat (acc : Nat) : List Char → Nat
  | [] => acc
  | c :: rest => digitsToNat (acc * 10 + (c.toNat - 48)) rest

/-- A JSON integer literal (strict: no leading zeros). -/
def numFrom (cs : List Char) : Option (Int × List Char) :=
  let (neg, cs2) := match cs with
    | '-' :: rest => (true, rest)
    | _ => (false, cs)
  let ds := cs2.takeWhile isDigit
  let rest := cs2.dropWhile isDigit
  if ds.isEmpty then none
  else if ds.length > 1 && ds.headD '0' == '0' then none
  else
    let n : Int := Int.ofNat (digitsToNat 0 ds)
    some (if neg then -n else n, rest)

/-- JS object-key insertion: a duplicate key keeps its first position
    but takes the last value, as JSON.parse does. -/
def objSet : JsonObj → String → Json → JsonObj
  | JsonObj.nil, k, v => JsonObj.cons k v JsonObj.nil
  | JsonObj.cons k0 v0 rest, k, v =>
    if k0 == k then JsonObj.cons k0 v rest
    else JsonObj.cons k0 v0 (objSet rest k v)

inductive PTask where
  | val : PTask
  | arrTail : Bool → PTask
  | objTail : Bool → JsonObj → PTask

inductive PRes where
  | v : Json → PRes
  | a : JsonArr → PRes
  | o : JsonObj → PRes

/-- Fuel-indexed recursive-descent step of JSON.parse over the embedded
    fragment: a value, the tail of an array, or the tail of an object. -/
def pstep : Nat → PTask → List Char → Option (PRes × List Char)
  | 0, _, _ => none
  | Nat.succ fuel, PTask.val, cs =>
    match skipWs cs with
    | [] => none
    | c :: rest =>
      if c == '"' then
        (strBody rest).map (fun p => (PRes.v (Json.str ⟨p.1⟩), p.2))
      else if c == '[' then
        (pstep fuel (PTask.arrTail true) rest).bind fun p =>
          match p.1 with
          | PRes.a xs => some (PRes.v (Json.arr xs), p.2)
          | _ => none
      else if c == '\x7b' then
        (pstep fuel (PTask.objTail true JsonObj.nil) rest).bind fun p =>
          match p.1 with
          | PRes.o kvs => some (PRes.v (Json.obj kvs), p.2)
          | _ => none
      else
        (numFrom (c :: rest)).map (fun p => (PRes.v (Json.num p.1), p.2))
  | Nat.succ fuel, PTask.arrTail first, cs =>
    match skipWs cs with
    | [] => none
    | c :: rest =>
      if c == ']' && first then some (PRes.a JsonArr.nil, rest)
      else
        (pstep fuel PTask.val (c :: rest)).bind fun p =>
          match p.1 with
          | PRes.v item =>
            (match skipWs p.2 with
             | ',' :: r2 =>
               (pstep fuel (PTask.arrTail false) r2).bind fun q =>
                 match q.1 with
                 | PRes.a xs => some (PRes.a (JsonArr.cons item xs), q.2)
                 | _ => none
             | ']' :: r2 => some (PRes.a (JsonArr.cons item JsonArr.nil), r2)
             | _ => none)
          | _ => none
  | Nat.succ fuel, PTask.objTail first acc, cs =>
    match skipWs cs with
    | [] => none
    | c :: rest =>
      if c == '\x7d' && first then some (PRes.o acc, rest)
      else if c == '"' then
        (strBody rest).bind fun kp =>
          match skipWs kp.2 with
          | ':' :: r2 =>
            (pstep fuel PTask.val r2).bind fun p =>
              match p.1 with
              | PRes.v item =>
                let acc2 := objSet acc ⟨kp.1⟩ item
                (match skipWs p.2 with
                 | ',' :: r3 =>
                   (pstep fuel (PTask.objTail false acc2) r3).bind fun q =>
                     match q.1 with
                     | PRes.o kvs => some (PRes.o kvs, q.2)
                     | _ => none
                 | '\x7d' :: r3 => some (PRes.o acc2, r3)
                 | _ => none)
              | _ => none
          | _ => none
      else none

/-- JSON.parse over the embedded fragment: the whole input must be one
    value surrounded only by whitespace. -/
def jsonParse (s : String) : Option Json :=
  match pstep (2 * s.data.length + 2) PTask.val s.data with
  | some (PRes.v j, rest) => if (skipWs rest).isEmpty then some j else none
  | _ => none

/-- First binding of a key in an object (later duplicates never exist
    after objSet insertion). -/
def objGet : JsonObj → String → Option Json
  | JsonObj.nil, _ => none
  | JsonObj.cons k v rest, key => if k == key then some v else objGet rest key

def isStrVal : Option Json → Bool
  | some (Json.str _) => true
  | _ => false

def isIntVal : Option Json → Bool
  | some (Json.num _) => true
  | _ => false

def optIntVal : Option Json → Bool
  | none => true
  | some (Json.num _) => true
  | _ => false

def allStrArr : JsonArr → Bool
  | JsonArr.nil => true
  | JsonArr.cons (Json.str _) rest => allStrArr rest
  | JsonArr.cons _ _ => false

def isStrArrVal : Option Json → Bool
  | some (Json.arr xs) => allStrArr xs
  | _ => false

/-- Conformance to the responseSchema declared in index.js lines
    194-226: the six required fields with their declared types; the four
    breakdown sub-fields are typed but not listed as required. -/
def matchesSchema : Json → Bool
  | Json.obj o =>
    isStrVal (objGet o "context") && isIntVal (objGet o "score") &&
    (match objGet o "breakdown" with
     | some (Json.obj b) =>
       optIntVal (objGet b "documentation") && optIntVal (objGet b "structure") &&
       optIntVal (objGet b "code_quality") && optIntVal (objGet b "best_practices")
     | _ => false) &&
    isStrVal (objGet o "summary") &&
    isStrArrVal (objGet o "suggestions") &&
    isStrArrVal (objGet o "production_gaps")
  | _ => false

/-- Environment configuration read by the route (index.js line 133). -/
structure Env where
  api_key : Option String
  gemini_api_key : Option String

/-- Body of POST /evaluate. -/
structure EvalRequest where
  repoUrl : Option String

structure HttpResponse where
  status : Nat
  body : String
deriving DecidableEq

/-- res.status(n).json with an error envelope. -/
def errBody (msg : String) : String :=
  jsonStringify (Json.obj (JsonObj.cons "error" (Json.str msg) JsonObj.nil))

/-- res.status(n).json with an error envelope carrying details. -/
def errDetailsBody (msg details : String) : String :=
  jsonStringify (Json.obj (JsonObj.cons "error" (Json.str msg)
    (JsonObj.cons "details" (Json.str details) JsonObj.nil)))

def modelNames : List String :=
  ["gemini-2.5-flash", "gemini-2.5-pro", "gemini-1.5-flash", "gemini-1.5-pro"]

/-- The model-fallback loop (index.js lines 147-236): att n gives the
    outcome of ai.models.generateContent for candidate model n (ok
    carries response.text, where none or "" is a missing text).  The
    loop keeps the last error and stops at the first success. -/
def tryModels (att : String → Except String (Option String)) :
    List String → Option String → Except (Option String) (Option String)
  | [], lastErr => Except.error lastErr
  | n :: rest, _ =>
    match att n with
    | Except.ok r => Except.ok r
    | Except.error e => tryModels att rest (some e)

/-- Engine-specific message of the SyntaxError thrown by JSON.parse on
    malformed input (its exact wording is runtime-defined). -/
def jsonSyntaxErrorMsg : String := "Unexpected token"

/-- The POST /evaluate handler (index.js lines 126-255).  decode is the
    base64 decoder, github holds the settled sub-request outcomes, and
    att n c is the model-call outcome for candidate model n under
    detected context c (the rest of the prompt is a pure function of
    the fetched snapshot, fixed within a request).  Thrown errors are
    caught at the route boundary as 500 envelopes. -/
def handleEvaluate (decode : String → String) (env : Env) (github : GithubResults)
    (att : String → String → Except String (Option String))
    (req : EvalRequest) : HttpResponse :=
  if !(strTruthy req.repoUrl) then ⟨400, errBody "Repo URL is required"⟩
  else if !(strTruthy (jsOrStr env.api_key env.gemini_api_key)) then
    ⟨500, errBody "Gemini API key missing"⟩
  else
    match extractRepoDetails (req.repoUrl.getD "") with
    | Except.error e => ⟨500, errBody e⟩
    | Except.ok rid =>
      match fetchGithubData decode rid.owner rid.repo github with
      | Except.error e => ⟨500, errBody e⟩
      | Except.ok repoData =>
        match tryModels (fun n => att n (detectContext repoData)) modelNames none with
        | Except.error lastErr =>
          ⟨500, errDetailsBody "Failed to connect to any Gemini model"
            (jsOrDefault lastErr "Unknown error")⟩
        | Except.ok t =>
          if !(strTruthy t) then ⟨500, errBody "AI failed to respond"⟩
          else
            match jsonParse (t.getD "") with
            | none => ⟨500, errBody jsonSyntaxErrorMsg⟩
            | some v => ⟨200, jsonStringify v⟩

/-- C3 counterexample: when the metadata sub-request fails, the service
    does answer HTTP 500, but the body is
    \x7b"error":"Failed to fetch repository data"\x7d, not
    \x7b"error":"Repository not found or private"\x7d: the inner message
    is swallowed by fetchGithubData's own catch block. -/
theorem C3_counterexample :
    handleEvaluate (fun s => s) ⟨some "key", none⟩ ⟨none, none, none, none⟩
      (fun _ _ => Except.error "boom") ⟨some "https://github.com/acme/app"⟩ =
      ⟨500, errBody "Failed to fetch repository data"⟩ ∧
    errBody "Failed to fetch repository data" ≠
      "\x7b\"error\":\"Repository not found or private\"\x7d" :=
  ⟨rfl, by decide⟩

/-- C3 amended: the fetch fails iff the metadata sub-request fails, the
    other three sub-requests degrade to empty defaults, and a metadata
    failure is answered with HTTP 500 and body
    \x7b"error":"Failed to fetch repository data"\x7d (the catch block in
    fetchGithubData rewrites the inner "Repository not found or private"
    message before the route handler serializes it). -/
theorem C3_meta_failure_and_defaults
    (decode : String → String) (env : Env) (github : GithubResults)
    (att : String → String → Except String (Option String))
    (url : String) (rid : RepoId)
    (hurl : strTruthy (some url) = true)
    (hkey : strTruthy (jsOrStr env.api_key env.gemini_api_key) = true)
    (hex : extractRepoDetails url = Except.ok rid) :
    ((∃ e, fetchGithubData decode rid.owner rid.repo github = Except.error e) ↔
      github.meta = none) ∧
    (github.meta = none →
      handleEvaluate decode env github att ⟨some url⟩ =
        ⟨500, errBody "Failed to fetch repository data"⟩) ∧
    (∀ m, github.meta = some m →
      ∃ d, fetchGithubData decode rid.owner rid.repo github = Except.ok d ∧
        (github.langs = none → d.languages = []) ∧
        (github.tree = none → d.file_structure = []) ∧
        (github.readme = none → d.readme = "")) := by
  refine ⟨⟨?_, ?_⟩, ?_, ?_⟩
  · rintro ⟨e, he⟩
    cases hm : github.meta with
    | none => rfl
    | some m => simp [fetchGithubData, fetchGithubDataCore, hm] at he
  · intro hm
    exact ⟨"Failed to fetch repository data",
      by simp [fetchGithubData, fetchGithubDataCore, hm]⟩
  · intro hm
    have hfetch : fetchGithubData decode rid.owner rid.repo github =
        Except.error "Failed to fetch repository data" := by
      simp [fetchGithubData, fetchGithubDataCore, hm]
    simp [handleEvaluate, hurl, hkey, hex, hfetch]
  · intro m hm
    refine ⟨{ owner := rid.owner, repo := rid.repo,
              description := m.description.getD "",
              stars := m.stargazers_count, forks := m.forks_count,
              open_issues := m.open_issues_count,
              readme := match github.readme with
                | some content => jsSlice (decode content) 8000
                | none => "",
              file_structure := match github.tree with
                | some t => fileStructure t
                | none => [],
              languages := github.langs.getD [] },
      by simp [fetchGithubData, fetchGithubDataCore, hm], ?_, ?_, ?_⟩ <;>
      intro h <;> simp [h]

/-- C3 amended witness: a concrete request whose metadata sub-request
    was rejected. -/
theorem C3_meta_failure_and_defaults_witness :
    handleEvaluate (fun s => s) ⟨some "k", none⟩ ⟨none, none, none, none⟩
      (fun _ _ => Except.error "x") ⟨some "https://github.com/acme/tool"⟩ =
      ⟨500, errBody "Failed to fetch repository data"⟩ :=
  (C3_meta_failure_and_defaults (fun s => s) ⟨some "k", none⟩ ⟨none, none, none, none⟩
    (fun _ _ => Except.error "x") "https://github.com/acme/tool" ⟨"acme", "tool"⟩
    (by decide) (by decide) rfl).2.1 rfl

/-- C4 counterexample: a present but unparseable repoUrl is answered
    with HTTP 500 (body \x7b"error":"Invalid GitHub URL"\x7d), not HTTP
    400: the extractRepoDetails throw is caught by the route's catch-all
    which always answers 500. -/
theorem C4_counterexample :
    (handleEvaluate (fun s => s) ⟨some "key", none⟩ ⟨none, none, none, none⟩
      (fun _ _ => Except.error "boom") ⟨some "not-a-github-url"⟩).status ≠ 400 ∧
    handleEvaluate (fun s => s) ⟨some "key", none⟩ ⟨none, none, none, none⟩
      (fun _ _ => Except.error "boom") ⟨some "not-a-github-url"⟩ =
      ⟨500, errBody "Invalid GitHub URL"⟩ :=
  ⟨by decide, rfl⟩

/-- C4 amended: with an API key configured, a present, nonempty repoUrl
    that does not match the github.com/owner/repo pattern is answered
    with HTTP 500 and body \x7b"error":"Invalid GitHub URL"\x7d, for
    every GitHub and model oracle — so no outbound call influences the
    response. -/
theorem C4_unparseable_url_500
    (decode : String → String) (env : Env) (github : GithubResults)
    (att : String → String → Except String (Option String)) (url : String)
    (hurl : strTruthy (some url) = true)
    (hkey : strTruthy (jsOrStr env.api_key env.gemini_api_key) = true)
    (hbad : matchRepoUrl url.data = none) :
    handleEvaluate decode env github att ⟨some url⟩ =
      ⟨500, errBody "Invalid GitHub URL"⟩ := by
  have hex : extractRepoDetails url = Except.error "Invalid GitHub URL" := by
    simp [extractRepoDetails, hbad]
  simp [handleEvaluate, hurl, hkey, hex]

/-- C4 amended witness. -/
theorem C4_unparseable_url_500_witness :
    handleEvaluate (fun s => s) ⟨none, some "gk"⟩ ⟨none, none, none, none⟩
      (fun _ _ => Except.error "x") ⟨some "http://example.com/foo"⟩ =
      ⟨500, errBody "Invalid GitHub URL"⟩ :=
  C4_unparseable_url_500 (fun s => s) ⟨none, some "gk"⟩ ⟨none, none, none, none⟩
    (fun _ _ => Except.error "x") "http://example.com/foo"
    (by decide) (by decide) (by decide)

/-- A schema-conformant model reply value. -/
def replyVal : Json :=
  Json.obj (JsonObj.cons "context" (Json.str "DSA")
    (JsonObj.cons "score" (Json.num 87)
      (JsonObj.cons "breakdown" (Json.obj
        (JsonObj.cons "documentation" (Json.num 80)
          (JsonObj.cons "structure" (Json.num 85)
            (JsonObj.cons "code_quality" (Json.num 90)
              (JsonObj.cons "best_practices" (Json.num 88) JsonObj.nil)))))
        (JsonObj.cons "summary" (Json.str "Solid")
          (JsonObj.cons "suggestions" (Json.arr
            (JsonArr.cons (Json.str "Add tests") JsonArr.nil))
            (JsonObj.cons "production_gaps" (Json.arr JsonArr.nil)
              JsonObj.nil))))))

/-- The same reply pretty-printed (spaces after colons and commas). -/
def replyPretty : String :=
  "\x7b \"context\": \"DSA\", \"score\": 87, \"breakdown\": \x7b \"documentation\": 80, \"structure\": 85, \"code_quality\": 90, \"best_practices\": 88 \x7d, \"summary\": \"Solid\", \"suggestions\": [\"Add tests\"], \"production_gaps\": [] \x7d"

/-- C5 counterexample: a schema-conformant pretty-printed reply is
    parsed and re-serialized, so the body the caller receives is not
    byte-identical to the reply text (surface formatting is
    normalized). -/
theorem C5_counterexample :
    (match jsonParse replyPretty with
      | some v => matchesSchema v
      | none => false) = true ∧
    handleEvaluate (fun s => s) ⟨some "key", none⟩
      ⟨some ⟨none, 0, 0, 0⟩, none, none, none⟩
      (fun _ _ => Except.ok (some replyPretty)) ⟨some "https://github.com/acme/app"⟩ =
      ⟨200, jsonStringify replyVal⟩ ∧
    jsonStringify replyVal ≠ replyPretty :=
  ⟨rfl, rfl, by decide⟩

/-- C5 amended: when the model reply parses as JSON (in particular when
    it matches the declared schema), the service answers HTTP 200 with
    JSON.stringify of the parsed value — the same JSON value, scores
    unclamped and suggestion order preserved, but re-serialized rather
    than byte-identical. -/
theorem C5_reply_reserialized
    (decode : String → String) (env : Env) (github : GithubResults)
    (att : String → String → Except String (Option String))
    (url : String) (rid : RepoId) (d : RepoData) (reply : String) (v : Json)
    (hurl : strTruthy (some url) = true)
    (hkey : strTruthy (jsOrStr env.api_key env.gemini_api_key) = true)
    (hex : extractRepoDetails url = Except.ok rid)
    (hfetch : fetchGithubData decode rid.owner rid.repo github = Except.ok d)
    (hmodel : tryModels (fun n => att n (detectContext d)) modelNames none =
      Except.ok (some reply))
    (hne : (reply == "") = false)
    (hp : jsonParse reply = some v)
    ( _hs : matchesSchema v = true) :
    handleEvaluate decode env github att ⟨some url⟩ = ⟨200, jsonStringify v⟩ := by
  have hrt : strTruthy (some reply) = true := by simp [strTruthy, hne]
  simp [handleEvaluate, hurl, hkey, hex, hfetch, hmodel, hrt, hp]

/-- C5 amended witness: a compact schema-conformant reply round-trips
    and is served back with status 200. -/
theorem C5_reply_reserialized_witness :
    handleEvaluate (fun s => s) ⟨some "key", none⟩
      ⟨some ⟨none, 0, 0, 0⟩, none, none, none⟩
      (fun _ _ => Except.ok (some (jsonStringify replyVal)))
      ⟨some "https://github.com/acme/tool"⟩ =
      ⟨200, jsonStringify replyVal⟩ :=
  C5_reply_reserialized (fun s => s) ⟨some "key", none⟩
    ⟨some ⟨none, 0, 0, 0⟩, none, none, none⟩
    (fun _ _ => Except.ok (some (jsonStringify replyVal)))
    "https://github.com/acme/tool" ⟨"acme", "tool"⟩
    { owner := "acme", repo := "tool", description := "", stars := 0, forks := 0,
      open_issues := 0, readme := "", file_structure := [], languages := [] }
    (jsonStringify replyVal) replyVal
    (by decide) (by decide) rfl rfl rfl (by decide) rfl (by decide)

/-- C6: the model call iterates over the fixed ordered candidate list,
    stopping at the first success; the error outcome occurs exactly when
    every attempt fails, and then the service answers HTTP 500 whose
    details field carries the last attempt's error message. -/
theorem C6_model_fallback :
    (∀ f : String → Except String (Option String),
      (∀ r, f "gemini-2.5-flash" = Except.ok r →
        tryModels f modelNames none = Except.ok r) ∧
      (∀ e0 r, f "gemini-2.5-flash" = Except.error e0 →
        f "gemini-2.5-pro" = Except.ok r →
        tryModels f modelNames none = Except.ok r) ∧
      (∀ e0 e1 r, f "gemini-2.5-flash" = Except.error e0 →
        f "gemini-2.5-pro" = Except.error e1 →
        f "gemini-1.5-flash" = Except.ok r →
        tryModels f modelNames none = Except.ok r) ∧
      (∀ e0 e1 e2 r, f "gemini-2.5-flash" = Except.error e0 →
        f "gemini-2.5-pro" = Except.error e1 →
        f "gemini-1.5-flash" = Except.error e2 →
        f "gemini-1.5-pro" = Except.ok r →
        tryModels f modelNames none = Except.ok r) ∧
      (∀ e0 e1 e2 e3, f "gemini-2.5-flash" = Except.error e0 →
        f "gemini-2.5-pro" = Except.error e1 →
        f "gemini-1.5-flash" = Except.error e2 →
        f "gemini-1.5-pro" = Except.error e3 →
        tryModels f modelNames none = Except.error (some e3)) ∧
      (∀ err, tryModels f modelNames none = Except.error err →
        (f "gemini-2.5-flash").isOk = false ∧ (f "gemini-2.5-pro").isOk = false ∧
        (f "gemini-1.5-flash").isOk = false ∧ (f "gemini-1.5-pro").isOk = false)) ∧
    (∀ (decode : String → String) (env : Env) (github : GithubResults)
      (att : String → String → Except String (Option String))
      (url : String) (rid : RepoId) (d : RepoData) (e0 e1 e2 e3 : String),
      strTruthy (some url) = true →
      strTruthy (jsOrStr env.api_key env.gemini_api_key) = true →
      extractRepoDetails url = Except.ok rid →
      fetchGithubData decode rid.owner rid.repo github = Except.ok d →
      att "gemini-2.5-flash" (detectContext d) = Except.error e0 →
      att "gemini-2.5-pro" (detectContext d) = Except.error e1 →
      att "gemini-1.5-flash" (detectContext d) = Except.error e2 →
      att "gemini-1.5-pro" (detectContext d) = Except.error e3 →
      (e3 == "") = false →
      handleEvaluate decode env github att ⟨some url⟩ =
        ⟨500, errDetailsBody "Failed to connect to any Gemini model" e3⟩) := by
  constructor
  · intro f
    refine ⟨?_, ?_, ?_, ?_, ?_, ?_⟩
    · intro r h0
      simp [modelNames, tryModels, h0]
    · intro e0 r h0 h1
      simp [modelNames, tryModels, h0, h1]
    · intro e0 e1 r h0 h1 h2
      simp [modelNames, tryModels, h0, h1, h2]
    · intro e0 e1 e2 r h0 h1 h2 h3
      simp [modelNames, tryModels, h0, h1, h2, h3]
    · intro e0 e1 e2 e3 h0 h1 h2 h3
      simp [modelNames, tryModels, h0, h1, h2, h3]
    · intro err h
      rcases h0 : f "gemini-2.5-flash" with e0 | r0
      · rcases h1 : f "gemini-2.5-pro" with e1 | r1
        · rcases h2 : f "gemini-1.5-flash" with e2 | r2
          · rcases h3 : f "gemini-1.5-pro" with e3 | r3
            · simp [Except.isOk, Except.toBool, h0, h1, h2, h3]
            · simp [modelNames, tryModels, h0, h1, h2, h3] at h
          · simp [modelNames, tryModels, h0, h1, h2] at h
        · simp [modelNames, tryModels, h0, h1] at h
      · simp [modelNames, tryModels, h0] at h
  · intro decode env github att url rid d e0 e1 e2 e3 hurl hkey hex hfetch h0 h1 h2 h3 hne
    have hmodel : tryModels (fun n => att n (detectContext d)) modelNames none =
        Except.error (some e3) := by
      simp [modelNames, tryModels, h0, h1, h2, h3]
    simp [handleEvaluate, hurl, hkey, hex, hfetch, hmodel, jsOrDefault, hne]

/-- C6 witness: all four candidates fail with "quota exceeded"; the 500
    response carries it in the details field. -/
theorem C6_model_fallback_witness :
    handleEvaluate (fun s => s) ⟨some "key", none⟩
      ⟨some ⟨none, 0, 0, 0⟩, none, none, none⟩
      (fun _ _ => Except.error "quota exceeded") ⟨some "https://github.com/acme/tool"⟩ =
      ⟨500, errDetailsBody "Failed to connect to any Gemini model" "quota exceeded"⟩ :=
  C6_model_fallback.2 (fun s => s) ⟨some "key", none⟩
    ⟨some ⟨none, 0, 0, 0⟩, none, none, none⟩
    (fun _ _ => Except.error "quota exceeded") "https://github.com/acme/tool"
    ⟨"acme", "tool"⟩
    { owner := "acme", repo := "tool", description := "", stars := 0, forks := 0,
      open_issues := 0, readme := "", file_structure := [], languages := [] }
    "quota exceeded" "quota exceeded" "quota exceeded" "quota exceeded"
    (by decide) (by decide) rfl rfl rfl rfl rfl rfl (by decide)

/-- C7: for every upstream file tree, the snapshot's file paths hold at
    most 100 entries, none deeper than 3 slash-separated segments, form
    a subsequence of the upstream path order, and are exactly the
    depth-filtered listing truncated to its first 100 entries. -/
theorem C7_file_structure_shape (tree : List TreeNode) :
    (fileStructure tree).length ≤ 100 ∧
    (∀ p, p ∈ fileStructure tree → (jsSplit p '/').length ≤ 3) ∧
    List.Sublist (fileStructure tree) (tree.map TreeNode.path) ∧
    fileStructure tree =
      (((tree.filter (fun n => n.type == "blob" || n.type == "tree")).map
        TreeNode.path).filter (fun p => decide ((jsSplit p '/').length ≤ 3))).take 100 := by
  refine ⟨List.length_take_le 100 _, ?_, ?_, rfl⟩
  · intro p hp
    unfold fileStructure at hp
    have h2 : p ∈ List.filter (fun q => decide ((jsSplit q '/').length ≤ 3))
        (List.map TreeNode.path
          (List.filter (fun n => n.type == "blob" || n.type == "tree") tree)) :=
      List.take_subset 100 _ hp
    exact of_decide_eq_true (List.mem_filter.mp h2).2
  · exact (List.take_sublist _ _).trans ((List.filter_sublist _).trans
      ((List.filter_sublist tree).map TreeNode.path))

/-- C7 witness: a two-node tree evaluated concretely. -/
theorem C7_file_structure_shape_witness :
    (fileStructure [⟨"blob", "src/a/b.js"⟩, ⟨"tree", "src"⟩]).length ≤ 100 ∧
    (jsSplit "src/a/b.js" '/').length ≤ 3 :=
  ⟨(C7_file_structure_shape [⟨"blob", "src/a/b.js"⟩, ⟨"tree", "src"⟩]).1,
   (C7_file_structure_shape [⟨"blob", "src/a/b.js"⟩, ⟨"tree", "src"⟩]).2.1
     "src/a/b.js" (by decide)⟩

/-- C8: the snapshot's readme is the decoded README text truncated to
    its first 8000 characters (and empty when the README sub-request was
    rejected), so its length never exceeds 8000. -/
theorem C8_readme_bounded (decode : String → String) (g : GithubResults)
    (owner repo : String) (m : Meta) (d : RepoData)
    (hm : g.meta = some m)
    (hd : fetchGithubData decode owner repo g = Except.ok d) :
    d.readme.length ≤ 8000 ∧
    (∀ content, g.readme = some content → d.readme = jsSlice (decode content) 8000) ∧
    (g.readme = none → d.readme = "") := by
  simp [fetchGithubData, fetchGithubDataCore, hm] at hd
  subst hd
  refine ⟨?_, ?_, ?_⟩
  · cases hr : g.readme with
    | some content => simp [hr, jsSlice]
    | none => simp [hr]
  · intro content hr
    simp [hr]
  · intro hr
    simp [hr]

/-- C8 witness: a five-character decoded README is kept whole. -/
theorem C8_readme_bounded_witness :
    ({ owner := "acme", repo := "tool", description := "", stars := 0, forks := 0,
       open_issues := 0, readme := jsSlice "hello" 8000, file_structure := [],
       languages := [] } : RepoData).readme.length ≤ 8000 :=
  (C8_readme_bounded (fun s => s) ⟨some ⟨none, 0, 0, 0⟩, none, none, some "hello"⟩
    "acme" "tool" ⟨none, 0, 0, 0⟩
    { owner := "acme", repo := "tool", description := "", stars := 0, forks := 0,
      open_issues := 0, readme := jsSlice "hello" 8000, file_structure := [],
      languages := [] } rfl rfl).1

/-- detectContext always lands on one of the two labels. -/
theorem detectContext_two_labels (data : RepoData) :
    detectContext data = "DSA" ∨ detectContext data = "Backend" := by
  unfold detectContext
  cases h1 : isDSAData data <;>
    cases h2 : (!hasBackendConfig data && decide (data.file_structure.length < 10)) <;>
      simp [h1, h2]

/-- C9: whenever the metadata sub-request succeeds, the fetcher
    produces a snapshot whose description is always a string (the empty
    string when the upstream description is null), and detectContext is
    total on it, yielding one of the two labels. -/
theorem C9_description_always_string (decode : String → String)
    (g : GithubResults) (owner repo : String) (m : Meta)
    (hm : g.meta = some m) :
    ∃ d, fetchGithubData decode owner repo g = Except.ok d ∧
      d.description = m.description.getD "" ∧
      (detectContext d = "DSA" ∨ detectContext d = "Backend") := by
  refine ⟨{ owner := owner, repo := repo,
            description := m.description.getD "",
            stars := m.stargazers_count, forks := m.forks_count,
            open_issues := m.open_issues_count,
            readme := match g.readme with
              | some content => jsSlice (decode content) 8000
              | none => "",
            file_structure := match g.tree with
              | some t => fileStructure t
              | none => [],
            languages := g.langs.getD [] },
    by simp [fetchGithubData, fetchGithubDataCore, hm], rfl, detectContext_two_labels _⟩

/-- C9 witness: a metadata response with a null description yields the
    empty-string description. -/
theorem C9_description_always_string_witness :
    ∃ d, fetchGithubData (fun s => s) "acme" "tool"
        ⟨some ⟨none, 1, 2, 3⟩, none, none, none⟩ = Except.ok d ∧
      d.description = (Meta.mk none 1 2 3).description.getD "" ∧
      (detectContext d = "DSA" ∨ detectContext d = "Backend") :=
  C9_description_always_string (fun s => s) ⟨some ⟨none, 1, 2, 3⟩, none, none, none⟩
    "acme" "tool" ⟨none, 1, 2, 3⟩ rfl

/-- C10: for every URL the pattern matches, extractRepoDetails returns
    the second capture with the first occurrence of ".git" removed,
    wherever that occurrence sits — a mid-name ".git" is altered, and
    only the first of several occurrences is removed. -/
theorem C10_first_dotgit_removed :
    (∀ (url : String) (o r : String), matchRepoUrl url.data = some (o, r) →
      extractRepoDetails url = Except.ok ⟨o, replaceFirst r ".git" ""⟩) ∧
    extractRepoDetails "https://github.com/acme/my.github-tools" =
      Except.ok ⟨"acme", "myhub-tools"⟩ ∧
    replaceFirst "my.github-tools" ".git" "" = "myhub-tools" ∧
    replaceFirst "repo.git.git" ".git" "" = "repo.git" := by
  refine ⟨?_, rfl, rfl, rfl⟩
  intro url o r h
  simp [extractRepoDetails, h]

/-- C10 witness: a trailing ".git" is stripped through the general
    equation. -/
theorem C10_first_dotgit_removed_witness :
    extractRepoDetails "https://github.com/acme/tool.git" =
      Except.ok ⟨"acme", replaceFirst "tool.git" ".git" ""⟩ :=
  C10_first_dotgit_removed.1 "https://github.com/acme/tool.git" "acme" "tool.git" rfl
